import Mathlib

/-!
Verification development for the NLP-QGIS command-interpretation pipeline.

The Python sources under `nlp_qgis/` are shallowly embedded below:

* numbers (confidence scores, distances) are modelled as `ℚ`; every
  comparison the claims depend on is decided far from any floating-point
  rounding boundary, so exact rational arithmetic and Python `float`
  arithmetic take the same branches on all inputs appearing here;
* Python dicts holding operation parameters are modelled as insertion-ordered
  association lists (`Dict`) with last-write-wins updates, mirroring
  `dict.update` / `{**a, **b}` semantics;
* the regular expressions of the sources are modelled by direct scanners
  with the same leftmost-match, ordered-alternation, greedy semantics
  (the concrete patterns involved never need backtracking: after the
  greedy numeric part only whitespace and an alphabetic unit can follow,
  and no unit starts with a digit or a dot);
* `None`-or-empty ("falsy") string checks of the Python sources are
  modelled by `strFalsy` on `Option String`.
-/

/-- Lowercase a string character-by-character (`str.lower()` for the ASCII
texts handled here). -/
def strLower (s : String) : String := ⟨s.data.map Char.toLower⟩

/-- `matchesAt needle hay`: `needle` is an initial segment of `hay`. -/
def matchesAt : List Char → List Char → Bool
  | [], _ => true
  | _ :: _, [] => false
  | a :: as, b :: bs => a == b && matchesAt as bs

/-- `occursIn needle hay`: `needle` occurs contiguously inside `hay`
(Python `needle in hay` on strings). -/
def occursIn (needle : List Char) : List Char → Bool
  | [] => needle.isEmpty
  | c :: cs => matchesAt needle (c :: cs) || occursIn needle cs

/-- Python `needle in hay` for strings. -/
def strContains (hay needle : String) : Bool := occursIn needle.data hay.data

/-- Split a character list on a set of delimiter characters, dropping empty
pieces is NOT done here; `re.split` keeps empty pieces, `str.split()` drops
them, so both variants are provided below. -/
def splitChars (isDelim : Char → Bool) : List Char → List (List Char)
  | [] => [[]]
  | c :: cs =>
    let rest := splitChars isDelim cs
    if isDelim c then [] :: rest
    else match rest with
      | [] => [[c]]
      | piece :: more => (c :: piece) :: more

/-- Python `re.split(r'[_\s-]', s)`: split on each delimiter occurrence,
keeping empty pieces. -/
def splitDelims (s : String) : List String :=
  (splitChars (fun c => c == '_' || c == '-' || c.isWhitespace) s.data).map
    (fun cs => ⟨cs⟩)

/-- Python `str.split()` with no argument: split on whitespace runs,
dropping empty pieces. -/
def splitWs (s : String) : List String :=
  ((splitChars (fun c => c.isWhitespace) s.data).map (fun cs => (⟨cs⟩ : String))).filter
    (fun p => p ≠ "")

/-- Python truthiness test for an optional string: `None` and `""` are falsy. -/
def strFalsy : Option String → Bool
  | none => true
  | some s => s == ""

/-- Python `a or b` on optional strings: yields `b` whenever `a` is falsy. -/
def pyOr (a b : Option String) : Option String := if strFalsy a then b else a

/-- Values stored in the parameter dictionaries of the pipeline records. -/
inductive PVal where
  | num (q : ℚ)
  | str (s : String)
  | bool (b : Bool)
  deriving DecidableEq, Repr

/-- Insertion-ordered association list modelling a Python dict with string
keys (keys unique; updates replace in place, new keys append). -/
abbrev Dict := List (String × PVal)

/-- `d[k]` lookup (first binding wins; `dictSet` keeps keys unique). -/
def dictGet (d : Dict) (k : String) : Option PVal :=
  match d with
  | [] => none
  | (k', v) :: rest => if k' == k then some v else dictGet rest k

/-- `k in d` key-presence test. -/
def dictHasKey (d : Dict) (k : String) : Bool := (dictGet d k).isSome

/-- `d[k] = v`: replace an existing binding in place, else append
(Python dict insertion-order semantics). -/
def dictSet (d : Dict) (k : String) (v : PVal) : Dict :=
  match d with
  | [] => [(k, v)]
  | (k', v') :: rest =>
    if k' == k then (k, v) :: rest else (k', v') :: dictSet rest k v

/-- `{**base, **override}`: start from `base`, write every binding of
`override` in order. -/
def dictMerge (base override : Dict) : Dict :=
  override.foldl (fun acc kv => dictSet acc kv.1 kv.2) base

/-- Rational addition written on the raw numerator/denominator so that the
kernel can evaluate it on closed terms (the library `Rat.add` is
`@[irreducible]`); `qAdd_eq` below identifies it with `+`. -/
def qAdd (a b : ℚ) : ℚ := mkRat (a.num * b.den + b.num * a.den) (a.den * b.den)

/-- Rational multiplication in kernel-evaluable form; `qMul_eq` below
identifies it with `*`. -/
def qMul (a b : ℚ) : ℚ := mkRat (a.num * b.num) (a.den * b.den)

/-- Numeric value of a decimal digit character. -/
def digitVal (c : Char) : ℕ := c.toNat - '0'.toNat

/-- Value of a digit string read as a natural number. -/
def digitsVal (ds : List Char) : ℕ := ds.foldl (fun acc c => 10 * acc + digitVal c) 0

/-- Python `float("<digits>.<digits>")` on the digit groups captured by the
distance patterns. -/
def floatOfDigits (intPart fracPart : List Char) : ℚ :=
  mkRat (digitsVal intPart * 10 ^ fracPart.length + digitsVal fracPart)
    (10 ^ fracPart.length)

/-- Ordered alternation over unit spellings: first alternative that is an
initial segment of `cs` wins, exactly like the regex `(u1|u2|...)`. -/
def matchUnit (units : List String) (cs : List Char) : Option String :=
  units.find? (fun u => matchesAt u.data cs)

/-- One attempt to match `(\d+\.?\d*)\s*(unit-alternation)` starting exactly
at `cs` (whose head is a digit): greedy digits, optional dot, greedy digits,
whitespace, then the ordered unit alternation.  Greedy matching without
backtracking coincides with the regex here because no unit alternative
starts with a digit, a dot or whitespace. -/
def matchDistanceAt (units : List String) (cs : List Char) : Option (ℚ × String) :=
  let intPart := cs.takeWhile Char.isDigit
  let r1 := cs.dropWhile Char.isDigit
  let r2 := if r1.head? == some '.' then r1.tail else r1
  let fracPart := r2.takeWhile Char.isDigit
  let r3 := r2.dropWhile Char.isDigit
  let r4 := r3.dropWhile Char.isWhitespace
  match matchUnit units r4 with
  | some u => some (floatOfDigits intPart fracPart, u)
  | none => none

/-- `re.search(r'(\d+\.?\d*)\s*(unit-alternation)', text)`: leftmost match
of the distance pattern; tries every start position from the left. -/
def scanDistance (units : List String) : List Char → Option (ℚ × String)
  | [] => none
  | c :: cs =>
    if c.isDigit then
      match matchDistanceAt units (c :: cs) with
      | some r => some r
      | none => scanDistance units cs
    else scanDistance units cs

/-! ## `nlp_engine` — fallback entity recognizer and context parser -/

/-- `gis_vocabulary['operations']` (`NLPEngine._initialize_gis_vocabulary`). -/
def vocabOperations : List String :=
  ["buffer", "clip", "intersect", "intersection", "union", "merge", "join",
   "select", "filter", "query", "find", "search", "extract", "dissolve",
   "split", "overlay", "spatial join", "near", "within", "contains"]

/-- `gis_vocabulary['layer_types']`. -/
def vocabLayerTypes : List String :=
  ["roads", "rivers", "buildings", "parcels", "boundaries", "points",
   "lines", "polygons", "raster", "vector", "shapefile", "layer",
   "features", "geometries", "areas", "zones", "regions"]

/-- Unit alternation of the `FallbackNER` distance regex
`(\d+\.?\d*)\s*(meter|metre|m|kilometer|kilometre|km|feet|foot|ft|mile|mi)`,
in source order. -/
def fallbackNerUnits : List String :=
  ["meter", "metre", "m", "kilometer", "kilometre", "km", "feet", "foot",
   "ft", "mile", "mi"]

/-- Output record of `FallbackNER.extract_gis_commands`. -/
structure EntityResult where
  action : Option String
  primaryTarget : Option String
  secondaryTarget : Option String
  parameters : Dict
  confidence : ℚ
  processingMethod : String
  deriving DecidableEq, Repr

/-- Fold step for the `FallbackNER` layer-type loop: a match fills
`primary_target`, then `secondary_target`, and ALWAYS adds `0.1` to the
confidence — the source loop has no `break` and no cap. -/
def fallbackLayerStep (textLower : String)
    (acc : Option String × Option String × ℚ) (layerType : String) :
    Option String × Option String × ℚ :=
  let (primary, secondary, conf) := acc
  if strContains textLower layerType then
    if primary.isNone then (some layerType, secondary, qAdd conf (mkRat 1 10))
    else if secondary.isNone then (primary, some layerType, qAdd conf (mkRat 1 10))
    else (primary, secondary, qAdd conf (mkRat 1 10))
  else acc

/-- `FallbackNER.extract_gis_commands` (nlp_engine/__init__.py, lines
631–673): base confidence 0.4; first vocabulary operation found in the
lowercased text (+0.2); layer-type scan filling primary/secondary targets
(+0.1 per match, uncapped); distance regex storing the RAW value and unit
spelling (+0.2) — note: no unit conversion happens here. -/
def fallbackNerExtract (text : String) : EntityResult :=
  let textLower := strLower text
  let action := vocabOperations.find? (fun op => strContains textLower op)
  let conf0 : ℚ := if action.isSome then qAdd (mkRat 2 5) (mkRat 1 5) else mkRat 2 5
  let (primary, secondary, conf1) :=
    vocabLayerTypes.foldl (fallbackLayerStep textLower) (none, none, conf0)
  match scanDistance fallbackNerUnits textLower.data with
  | some (d, u) =>
    { action := action, primaryTarget := primary, secondaryTarget := secondary,
      parameters := [("distance", PVal.num d), ("unit", PVal.str u)],
      confidence := qAdd conf1 (mkRat 1 5), processingMethod := "fallback_ner" }
  | none =>
    { action := action, primaryTarget := primary, secondaryTarget := secondary,
      parameters := [], confidence := conf1, processingMethod := "fallback_ner" }

/-- `GISContextParser.operation_mappings`, in insertion order. -/
def operationMappings : List (String × List String) :=
  [("buffer", ["buffer", "create buffer", "make buffer", "buffering"]),
   ("intersect", ["intersect", "intersection", "overlapping", "overlap", "overlaps with"]),
   ("clip", ["clip", "cut", "extract", "trim"]),
   ("merge", ["merge", "combine", "join", "dissolve"]),
   ("union", ["union", "unite", "combine"]),
   ("split", ["split", "divide", "separate"]),
   ("select", ["select", "choose", "pick", "filter", "find", "get"]),
   ("query", ["query", "search", "find", "where"]),
   ("proximity", ["near", "close to", "within", "distance", "proximity"]),
   ("density", ["density", "concentration", "hotspot", "cluster"]),
   ("statistics", ["statistics", "calculate", "compute", "stats", "mean", "average", "sum"])]

/-- `GISContextParser.spatial_relationships`. -/
def spatialRelationshipTerms : List String :=
  ["near", "close to", "far from", "adjacent to", "within", "contains",
   "inside", "outside", "intersects", "overlaps", "crosses", "touches"]

/-- Unit alternation of `GISContextParser.extract_numeric_parameters`
(`meter|meters|m|kilometer|kilometers|km|feet|foot|ft|mile|miles|mi`). -/
def contextParserUnits : List String :=
  ["meter", "meters", "m", "kilometer", "kilometers", "km", "feet", "foot",
   "ft", "mile", "miles", "mi"]

/-- `GISContextParser.identify_operation`: first mapping whose phrase occurs
in the lowercased text, else `"unknown"`. -/
def identifyOperation (text : String) : String :=
  let t := strLower text
  match operationMappings.find? (fun m => m.2.any (fun p => strContains t p)) with
  | some m => m.1
  | none => "unknown"

/-- `GISContextParser.identify_layers`: exact (substring) matches against the
active layer names first; if none, token-based matches on tokens of length
> 3 obtained by splitting the layer name on `[_\s-]`. -/
def identifyLayers (activeLayers : List String) (text : String) : List String :=
  let t := strLower text
  let exact := activeLayers.filter (fun layer => strContains t (strLower layer))
  if exact ≠ [] then exact
  else
    activeLayers.filter (fun layer =>
      (splitDelims (strLower layer)).any
        (fun tok => tok.length > 3 && strContains t tok))

/-- `GISContextParser.extract_numeric_parameters`: leftmost distance match
(case-insensitively, modelled by scanning the lowercased text), converting
kilometres/feet/miles to metres; stores only `distance` (no `unit` key). -/
def extractNumericParameters (text : String) : Dict :=
  match scanDistance contextParserUnits (strLower text).data with
  | some (v, u) =>
    let v' :=
      if u = "kilometer" ∨ u = "kilometers" ∨ u = "km" then qMul v (mkRat 1000 1)
      else if u = "feet" ∨ u = "foot" ∨ u = "ft" then qMul v (mkRat 3048 10000)
      else if u = "mile" ∨ u = "miles" ∨ u = "mi" then qMul v (mkRat 160934 100)
      else v
    [("distance", PVal.num v')]
  | none => []

/-- `GISContextParser.identify_spatial_relationship`. -/
def identifySpatialRelationship (text : String) : Option String :=
  let t := strLower text
  spatialRelationshipTerms.find? (fun r => strContains t r)

/-- Output record of `GISContextParser.parse_command`.  The source dict has
NO `confidence` key; the merge stage therefore reads its confidence as the
`.get('confidence', 0)` default `0`. -/
structure ContextResult where
  operation : String
  layers : List String
  parameters : Dict
  spatialRelationship : Option String
  inputLayer : Option String
  secondaryLayer : Option String
  deriving DecidableEq, Repr

/-- `GISContextParser.parse_command` with the parser's `active_layers`
state passed explicitly (a fresh engine and a single command; `None` active
layers behave identically to `[]` throughout the sources). -/
def parseCommand (activeLayers : List String) (text : String) : ContextResult :=
  let layers := identifyLayers activeLayers text
  { operation := identifyOperation text
    layers := layers
    parameters := extractNumericParameters text
    spatialRelationship := identifySpatialRelationship text
    inputLayer := layers.head?
    secondaryLayer := layers[1]? }

/-! ## `nlp_engine` — merge, layer matching, disambiguation, pipeline -/

/-- The merged intent record flowing out of `NLPEngine.process_command`.
`disambiguation_applied` is a key the source adds only in the disambiguation
stage; absence of the key is modelled as `false`.  `original_confidence` is
likewise only present after disambiguation. -/
structure MergedResult where
  operation : String
  inputLayer : Option String
  secondaryLayer : Option String
  parameters : Dict
  spatialRelationship : Option String
  confidence : ℚ
  originalText : String
  processingMethod : String
  disambiguationApplied : Bool
  originalConfidence : Option ℚ
  deriving DecidableEq, Repr

/-- `NLPEngine._match_layer_name` (lines 440–464): exact lowercase match,
then bidirectional substring match, then token matching of the
whitespace-split mention against the layer name split on `_`/whitespace. -/
def matchLayerName (mentioned : String) (activeLayers : List String) : Option String :=
  let mLower := strLower mentioned
  match activeLayers.find? (fun layer => strLower layer == mLower) with
  | some l => some l
  | none =>
    match activeLayers.find? (fun layer =>
        strContains (strLower layer) mLower || strContains mLower (strLower layer)) with
    | some l => some l
    | none =>
      let mTokens := splitWs mLower
      activeLayers.find? (fun layer =>
        let layerTokens := splitWs ⟨(strLower layer).data.map
          (fun c => if c == '_' then ' ' else c)⟩
        mTokens.any (fun tok => layerTokens.contains tok))

/-- One active-layer confirmation block of `_merge_and_enhance_results`
(the source repeats it for the input and the secondary layer with bonuses
`0.1` and `0.05`): when active layers exist and a layer mention is
present, a successful `_match_layer_name` replaces the mention with the
matched layer and adds the bonus to the confidence. -/
def enhanceLayer (activeLayers : List String) (layer : Option String)
    (conf bonus : ℚ) : Option String × ℚ :=
  if activeLayers ≠ [] ∧ ¬ strFalsy layer then
    match matchLayerName (layer.getD "") activeLayers with
    | some l => (some l, qAdd conf bonus)
    | none => (layer, conf)
  else (layer, conf)

/-- `NLPEngine._merge_and_enhance_results` (lines 399–438).  The context
result carries no `confidence` key, so `max(entity, context)` reads as
`max entity.confidence 0`.  Active-layer confirmation adds `+0.1` for the
input layer and `+0.05` for the secondary layer; the final confidence is
capped at `1.0` by `min(..., 1.0)`. -/
def mergeAndEnhanceResults (entity : EntityResult) (ctx : ContextResult)
    (text : String) (activeLayers : List String) : MergedResult :=
  let op0 := ctx.operation
  let inputLayer0 := pyOr entity.primaryTarget ctx.inputLayer
  let secondaryLayer0 := pyOr entity.secondaryTarget ctx.secondaryLayer
  let params := dictMerge ctx.parameters entity.parameters
  let conf0 : ℚ := max entity.confidence 0
  let op := if op0 = "unknown" ∧ ¬ strFalsy entity.action
            then entity.action.getD "unknown" else op0
  let e1 := enhanceLayer activeLayers inputLayer0 conf0 (mkRat 1 10)
  let e2 := enhanceLayer activeLayers secondaryLayer0 e1.2 (mkRat 1 20)
  { operation := op
    inputLayer := e1.1
    secondaryLayer := e2.1
    parameters := params
    spatialRelationship := ctx.spatialRelationship
    confidence := min e2.2 1
    originalText := text
    processingMethod := "merged"
    disambiguationApplied := false
    originalConfidence := none }

/-- Action verbs scanned by `_apply_disambiguation`. -/
def disambiguationActionWords : List String :=
  ["create", "make", "find", "get", "show", "calculate", "compute"]

/-- Operation inference of `_apply_disambiguation` (executed once, for the
first action word present in the text). -/
def inferOperationFromText (textLower : String) : Option String :=
  if ["buffer", "around"].any (fun w => strContains textLower w) then some "buffer"
  else if ["clip", "cut", "extract"].any (fun w => strContains textLower w) then some "clip"
  else if ["select", "filter", "where"].any (fun w => strContains textLower w) then some "select"
  else if ["intersect", "intersection", "overlap"].any (fun w => strContains textLower w) then
    some "intersection"
  else none

/-- `NLPEngine._apply_disambiguation` (lines 466–504): for an `"unknown"`
operation, infer one from action verbs co-occurring with domain keywords;
for a missing input layer with active layers available, guess the FIRST
active layer, set `parameters.auto_inferred_layer = True` and add `+0.1`
to the confidence (the source applies NO `min(..., 1.0)` cap here); always
stamp `disambiguation_applied = True` and keep `original_confidence`. -/
def applyDisambiguation (result : MergedResult) (text : String)
    (activeLayers : List String) : MergedResult :=
  let textLower := strLower text
  let op :=
    if result.operation = "unknown" ∧
       disambiguationActionWords.any (fun w => strContains textLower w) then
      (inferOperationFromText textLower).getD result.operation
    else result.operation
  let fillLayer := strFalsy result.inputLayer ∧ activeLayers ≠ []
  { result with
    operation := op
    inputLayer := if fillLayer then activeLayers.head? else result.inputLayer
    parameters := if fillLayer then
        dictSet result.parameters "auto_inferred_layer" (PVal.bool true)
      else result.parameters
    confidence := if fillLayer then qAdd result.confidence (mkRat 1 10)
      else result.confidence
    disambiguationApplied := true
    originalConfidence := some result.confidence }

/-- `NLPEngine.process_command` (lines 186–250) on the pattern-based
fallback path (no spaCy, so `self.ner` is a `FallbackNER`), for a fresh
engine and a single command: cache miss, entity extraction, context
parsing, merge/enhance, then disambiguation iff the merged confidence is
below the fixed threshold `0.6`.  The embedded stages are total, so the
`except` error-fallback branch is unreachable. -/
def processCommand (text : String) (activeLayers : List String) : MergedResult :=
  let entity := fallbackNerExtract text
  let ctx := parseCommand activeLayers text
  let merged := mergeAndEnhanceResults entity ctx text activeLayers
  if merged.confidence < mkRat 3 5 then applyDisambiguation merged text activeLayers
  else merged

/-! ## `query_engine/query_parser.py` — validation and context handling -/

/-- The validation messages issued by `NLPQueryParser.validate_query`,
as tags carrying the data interpolated by the source's f-strings:
* `unknownOperation`      — "Unknown or missing operation type."
* `missingInputLayer op`  — "No input layer specified for {op} operation."
* `missingDistance`       — "No buffer distance specified."
* `nonPositiveDistance`   — "Buffer distance must be greater than zero."
* `largeDistance`         — "Very large buffer distance may cause performance issues."
* `missingOverlay op`     — "No overlay layer specified for {op} operation."
* `missingSelectionCriteria` — "No selection criteria specified."
* `lowConfidence c`       — "Low confidence in query interpretation ({c:.2f}). …" -/
inductive QMsg where
  | unknownOperation
  | missingInputLayer (op : String)
  | missingDistance
  | nonPositiveDistance
  | largeDistance
  | missingOverlay (op : String)
  | missingSelectionCriteria
  | lowConfidence (c : ℚ)
  deriving DecidableEq, Repr

/-- An entry of the issue list returned by `validate_query`
(`{'severity': ..., 'message': ...}`). -/
structure QIssue where
  severity : String
  message : QMsg
  deriving DecidableEq, Repr

/-- The dict shape `validate_query` reads: every field accessed with
`.get`, so all fields are optional in the source; `confidence` defaults
to `0`. -/
structure ParsedQuery where
  operation : Option String
  inputLayer : Option String
  secondaryLayer : Option String
  parameters : Dict
  spatialRelationship : Option String
  confidence : ℚ
  deriving DecidableEq, Repr

/-- View a merged `process_command` record as the dict `validate_query`
receives (all keys present there). -/
def mergedToQuery (m : MergedResult) : ParsedQuery :=
  { operation := some m.operation
    inputLayer := m.inputLayer
    secondaryLayer := m.secondaryLayer
    parameters := m.parameters
    spatialRelationship := m.spatialRelationship
    confidence := m.confidence }

/-- The buffer branch of `validate_query`: missing `distance` is an
`error`; `distance <= 0` and `distance > 10000` are each a `warning`.
A non-numeric stored distance is never produced by the embedded pipeline
(the source would raise a `TypeError` on the comparison). -/
def validateBufferDistance (params : Dict) : List QIssue :=
  match dictGet params "distance" with
  | none => [⟨"error", QMsg.missingDistance⟩]
  | some (PVal.num d) =>
    if d ≤ 0 then [⟨"warning", QMsg.nonPositiveDistance⟩]
    else if d > 10000 then [⟨"warning", QMsg.largeDistance⟩]
    else []
  | some _ => []

/-- `NLPQueryParser.validate_query` (lines 335–406): a missing or
`"unknown"` operation is an immediate `error` that returns at once
(short-circuiting every later check, INCLUDING the low-confidence one);
otherwise the issue list is input-layer check ++ operation-specific check
++ low-confidence check (`confidence < 0.6` appends a `warning`). -/
def validateQuery (q : ParsedQuery) : List QIssue :=
  if strFalsy q.operation ∨ q.operation = some "unknown" then
    [⟨"error", QMsg.unknownOperation⟩]
  else
    let op := q.operation.getD ""
    let layerIssues :=
      if strFalsy q.inputLayer then [⟨"error", QMsg.missingInputLayer op⟩] else []
    let opIssues :=
      if op = "buffer" then validateBufferDistance q.parameters
      else if op = "clip" ∨ op = "intersection" ∨ op = "union" then
        if strFalsy q.secondaryLayer then [⟨"error", QMsg.missingOverlay op⟩] else []
      else if op = "select" then
        if ¬ dictHasKey q.parameters "expression" ∧ strFalsy q.spatialRelationship then
          [⟨"error", QMsg.missingSelectionCriteria⟩]
        else []
      else []
    let confIssues :=
      if q.confidence < mkRat 3 5 then [⟨"warning", QMsg.lowConfidence q.confidence⟩]
      else []
    layerIssues ++ opIssues ++ confIssues

/-- The two runtime shapes of `context['active_layers']` handled by
`parse_query`: a list of layer-info dicts (carrying `name` and `visible`)
or a plain list of names. -/
inductive ActiveLayersRepr where
  | byName (names : List String)
  | byDict (entries : List (String × Bool))
  deriving DecidableEq, Repr

/-- The `context` dict as read by `parse_query` (`active_layers` defaults
to `[]` when the key is absent, which `byName []` also covers). -/
structure QueryContext where
  activeLayers : ActiveLayersRepr
  crs : Option String
  deriving DecidableEq, Repr

/-- `NLPQueryParser.parse_query`, lines 70–76: the active-layer
normalization performed before calling the NLP engine.  The source runs
`isinstance(active_layers[0], dict)` on `context.get('active_layers', [])`
WITHOUT guarding against an empty list, so an empty `active_layers` raises
`IndexError` before any further processing; the error value records that. -/
def parseQueryContextStep (context : Option QueryContext) :
    Except String (Option (List String) × Option String) :=
  match context with
  | none => Except.ok (none, none)
  | some ctx =>
    match ctx.activeLayers with
    | ActiveLayersRepr.byName [] => Except.error "IndexError: list index out of range"
    | ActiveLayersRepr.byDict [] => Except.error "IndexError: list index out of range"
    | ActiveLayersRepr.byName ns => Except.ok (some ns, ctx.crs)
    | ActiveLayersRepr.byDict es => Except.ok (some (es.map Prod.fst), ctx.crs)

/-! ## `error_system/prevention.py` — risk rules and execution prevention -/

/-- An entry of the validation-issue lists handled by
`ProactiveErrorPrevention` (`{'type', 'message', 'severity'}`). -/
structure VIssue where
  itype : String
  message : String
  severity : String
  deriving DecidableEq, Repr

/-- `ProactiveErrorPrevention.should_prevent_execution` (lines 251–262):
`any(issue['severity'] == 'error' for issue in issues)`. -/
def shouldPreventExecution (issues : List VIssue) : Bool :=
  issues.any (fun issue => issue.severity == "error")

/-- The `applicable_ops` field of a risk rule: `'*'`, a single operation
name, or a list of names. -/
inductive ApplicableOps where
  | star
  | single (op : String)
  | several (ops : List String)
  deriving Repr

/-- The applicability test of `check_operation_risks`:
`applicable_ops == '*' or operation_type in (applicable_ops if isinstance(applicable_ops, list) else [applicable_ops])`. -/
def opApplies (a : ApplicableOps) (op : String) : Bool :=
  match a with
  | ApplicableOps.star => true
  | ApplicableOps.single s => op == s
  | ApplicableOps.several l => l.contains op

/-- A registered risk rule (`add_risk_rule`).  The detection predicate is a
Python callable that may raise, modelled as `Except` (an `error` value is a
raised exception carrying its rendering). -/
structure RiskRule where
  ruleId : String
  detect : String → Dict → Except String Bool
  message : String
  applicableOps : ApplicableOps

/-- A detected risk entry (`{'rule_id', 'message', 'severity': 'warning'}`). -/
structure DetectedRisk where
  ruleId : String
  message : String
  severity : String
  deriving DecidableEq, Repr

/-- `ProactiveErrorPrevention.check_operation_risks` (lines 145–173): apply
every applicable rule's detection function in order.  The source does NOT
wrap the call `rule['detection_func'](operation_type, parameters)` in any
`try`, so an exception raised by one rule propagates out of the whole
method (`Except.error`), skipping every later rule and producing no risk
list at all. -/
def checkOperationRisks (rules : List RiskRule) (operationType : String)
    (parameters : Dict) : Except String (List DetectedRisk) :=
  rules.foldlM
    (fun acc rule =>
      if opApplies rule.applicableOps operationType then do
        let fired ← rule.detect operationType parameters
        pure (if fired then acc ++ [⟨rule.ruleId, rule.message, "warning"⟩] else acc)
      else pure acc)
    []

/-- Modelled from the spec: the propagation policy of §7 ("wrap each rule
evaluation so one bad rule cannot prevent others from running or prevent a
conclusion being reached") — identical to `checkOperationRisks` except that
a rule whose predicate raises is skipped and evaluation continues. -/
def checkOperationRisksSkipFailing (rules : List RiskRule) (operationType : String)
    (parameters : Dict) : List DetectedRisk :=
  rules.foldl
    (fun acc rule =>
      if opApplies rule.applicableOps operationType then
        match rule.detect operationType parameters with
        | Except.ok true => acc ++ [⟨rule.ruleId, rule.message, "warning"⟩]
        | Except.ok false => acc
        | Except.error _ => acc
      else acc)
    []

/-- `params.get(k, default)` restricted to the numeric reads the default
rules perform (their fixture parameters are always numeric there). -/
def dictGetNum (d : Dict) (k : String) (dflt : ℚ) : ℚ :=
  match dictGet d k with
  | some (PVal.num q) => q
  | _ => dflt

/-- Required-parameter table of
`ProactiveErrorPrevention._check_missing_required_parameters`. -/
def requiredParams : List (String × List String) :=
  [("buffer", ["input_layer", "distance"]),
   ("clip", ["input_layer", "overlay_layer"]),
   ("intersection", ["input_layer", "overlay_layer"]),
   ("select", ["input_layer", "expression"]),
   ("union", ["input_layer", "overlay_layer"])]

/-- `_check_missing_required_parameters`: true iff the operation has a
required-parameter list and some required key is absent. -/
def checkMissingRequiredParameters (operationType : String) (parameters : Dict) : Bool :=
  match requiredParams.find? (fun rp => rp.1 == operationType) with
  | some rp => rp.2.any (fun p => ¬ dictHasKey parameters p)
  | none => false

/-- Aggregated error statistics as read by
`_check_if_error_prone_operation`: for each error type, the optional
`most_common_preceding_operation`. -/
abbrev ErrorTypeStats := List (String × Option String)

/-- `_check_if_error_prone_operation`: true iff some logged error type
reports this operation as its most common preceding operation.  When the
prevention system holds no usable error logger, the very first statistics
access raises (`Except.error`). -/
def checkIfErrorProneOperation (errorLogger : Option ErrorTypeStats)
    (operationType : String) (_parameters : Dict) : Except String Bool :=
  match errorLogger with
  | none =>
    Except.error "AttributeError: 'NoneType' object has no attribute 'get_error_statistics'"
  | some stats => Except.ok (stats.any (fun es => es.2 == some operationType))

/-- `_initialize_default_rules` (prevention.py, lines 36–69), in
registration order. -/
def defaultRiskRules (errorLogger : Option ErrorTypeStats) : List RiskRule :=
  [{ ruleId := "buffer_distance_too_large"
     detect := fun op params =>
       Except.ok (op == "buffer" && dictGetNum params "distance" 0 > 10000)
     message := "Warning: Buffer distance is very large (>10km), which may cause performance issues or memory errors."
     applicableOps := ApplicableOps.single "buffer" },
   { ruleId := "complex_geometry"
     detect := fun _ params =>
       Except.ok (dictHasKey params "input_layer" &&
         dictGetNum params "input_layer_feature_count" 0 > 10000)
     message := "Warning: Operation on a layer with more than 10,000 features may be slow or cause memory issues."
     applicableOps := ApplicableOps.several ["clip", "intersection", "union", "buffer"] },
   { ruleId := "missing_required_parameters"
     detect := fun op params => Except.ok (checkMissingRequiredParameters op params)
     message := "Warning: Operation is missing required parameters."
     applicableOps := ApplicableOps.star },
   { ruleId := "error_prone_operation"
     detect := checkIfErrorProneOperation errorLogger
     message := "Warning: This operation has frequently caused errors in the past."
     applicableOps := ApplicableOps.star }]

/-- A custom rule registered through `add_risk_rule` whose detection
predicate raises (e.g. a malformed lambda dividing by zero). -/
def raisingRiskRule : RiskRule :=
  { ruleId := "custom_bad_rule"
    detect := fun _ _ => Except.error "ZeroDivisionError: division by zero"
    message := "Warning: custom risk."
    applicableOps := ApplicableOps.star }

/-- A well-behaved custom rule registered after `raisingRiskRule` that
fires on every operation. -/
def firingRiskRule : RiskRule :=
  { ruleId := "custom_firing_rule"
    detect := fun _ _ => Except.ok true
    message := "Warning: custom firing risk."
    applicableOps := ApplicableOps.star }

/-- A rule set as produced by `__init__` followed by two `add_risk_rule`
calls (rules are appended in registration order). -/
def riskRulesWithBadRule : List RiskRule :=
  defaultRiskRules (some []) ++ [raisingRiskRule, firingRiskRule]

/-- A structurally valid buffer command's parameters, as
`validate_nlp_command` builds them for the risk check. -/
def validBufferRiskParams : Dict :=
  [("input_layer", PVal.str "roads"), ("secondary_layer", PVal.str ""),
   ("distance", PVal.num 100), ("unit", PVal.str "meters")]

/-! ## `query_engine/parameter_resolver.py` — select-expression resolution -/

/-- `\w` of the source regexes (ASCII range; the expressions handled are
ASCII). -/
def isWordChar (c : Char) : Bool := c.isAlphanum || c == '_'

/-- Case-insensitive initial-segment test (`re.IGNORECASE`). -/
def matchesAtCI (needle hay : List Char) : Bool :=
  matchesAt (needle.map Char.toLower) (hay.map Char.toLower)

/-- `\b` before a match: start of string or a non-word character (every
phrase substituted starts with a word character). -/
def boundaryBefore : Option Char → Bool
  | none => true
  | some c => ¬ isWordChar c

/-- `\b` after a match: end of string or a non-word character (every
phrase substituted ends with a word character). -/
def boundaryAfter : List Char → Bool
  | [] => true
  | c :: _ => ¬ isWordChar c

/-- Scanner for `re.sub(r'\b<phrase>\b', repl, text, flags=re.IGNORECASE)`:
left-to-right scan of the ORIGINAL text, replacing every boundary-delimited
case-insensitive occurrence; replacement text is not rescanned, and the
boundary context after a replacement is the original text (tracked by
passing the last character of the matched phrase as the new "previous
character"). -/
def reSubAux (phrase repl : List Char) (phraseLast : Char) :
    ℕ → Option Char → List Char → List Char
  | 0, _, l => l
  | _ + 1, _, [] => []
  | fuel + 1, prev, c :: cs =>
    if boundaryBefore prev && matchesAtCI phrase (c :: cs) &&
       boundaryAfter (List.drop phrase.length (c :: cs)) then
      repl ++ reSubAux phrase repl phraseLast fuel (some phraseLast)
        (List.drop (phrase.length - 1) cs)
    else
      c :: reSubAux phrase repl phraseLast fuel (some c) cs

/-- `re.sub(r'\b<phrase>\b', repl, text, flags=re.IGNORECASE)` for the
word-delimited literal phrases of `_resolve_select_params`.  Every scanner
step consumes at least one character of the text (the phrases substituted
are non-empty), so fuel `text.length` never runs out. -/
def reSubWord (phrase repl text : String) : String :=
  ⟨reSubAux phrase.data repl.data (phrase.data.getLastD ' ') text.data.length
    none text.data⟩

/-- The ordered substitution list of `_resolve_select_params` (lines
147–160), EXACTLY as in the source: note that `"greater than"` and
`"less than"` are listed BEFORE `"greater than or equal to"` and
`"less than or equal to"`, so the longer phrases can never match once the
shorter ones have fired. -/
def selectReplacements : List (String × String) :=
  [("is equal to", "="),
   ("equals", "="),
   ("is", "="),
   ("greater than", ">"),
   ("less than", "<"),
   ("greater than or equal to", ">="),
   ("less than or equal to", "<="),
   ("not equal to", "!="),
   ("does not equal", "!="),
   ("contains", "LIKE"),
   ("starts with", "LIKE"),
   ("ends with", "LIKE")]

/-- One attempt to match `(\w+)\s+<mid>\s+(\w+)` starting exactly at `l`
(case-sensitively — these `re.sub` calls pass no flags): greedy word
characters, whitespace, the literal `mid`, whitespace, greedy word
characters.  Returns the two captured words and the rest of the text. -/
def matchPairAt (mid : List Char) (l : List Char) :
    Option (List Char × List Char × List Char) :=
  let w1 := l.takeWhile isWordChar
  let r1 := l.dropWhile isWordChar
  let s1 := r1.takeWhile Char.isWhitespace
  let r2 := r1.dropWhile Char.isWhitespace
  if w1 ≠ [] ∧ s1 ≠ [] ∧ matchesAt mid r2 then
    let r3 := List.drop mid.length r2
    let s2 := r3.takeWhile Char.isWhitespace
    let r4 := r3.dropWhile Char.isWhitespace
    let w2 := r4.takeWhile isWordChar
    let r5 := r4.dropWhile isWordChar
    if s2 ≠ [] ∧ w2 ≠ [] then some (w1, w2, r5) else none
  else none

/-- Fuelled scanner for `re.sub(r'(\w+)\s+<mid>\s+(\w+)', mk, text)`:
each step consumes at least one character, so fuel `text.length`
suffices. -/
def subPairAux (mid : List Char) (mk : List Char → List Char → List Char) :
    ℕ → List Char → List Char
  | 0, l => l
  | _ + 1, [] => []
  | fuel + 1, c :: cs =>
    match matchPairAt mid (c :: cs) with
    | some (w1, w2, rest) => mk w1 w2 ++ subPairAux mid mk fuel rest
    | none => c :: subPairAux mid mk fuel cs

/-- `re.sub(r'(\w+)\s+<mid>\s+(\w+)', mk, text)`. -/
def subPair (mid : String) (mk : List Char → List Char → List Char)
    (text : String) : String :=
  ⟨subPairAux mid.data mk text.data.length text.data⟩

/-- The `' LIKE '` post-processing block of `_resolve_select_params`
(lines 166–170): wrap LIKE operands in wildcard syntax.  (The two
`starts with` / `ends with` substitutions are retained from the source
even though the phrases were already rewritten to `LIKE` above.) -/
def likeWildcardStep (expression : String) : String :=
  let e1 := subPair "LIKE" (fun w1 w2 =>
    w1 ++ " LIKE \"%".data ++ w2 ++ "%\"".data) expression
  let e2 := subPair "starts with" (fun w1 w2 =>
    w1 ++ " LIKE \"".data ++ w2 ++ "%\"".data) e1
  subPair "ends with" (fun w1 w2 =>
    w1 ++ " LIKE \"%".data ++ w2 ++ "\"".data) e2

/-- The expression rewriting of `ParameterResolver._resolve_select_params`
(lines 131–174): apply the ordered substitutions, then the wildcard block
when `' LIKE '` occurs. -/
def resolveSelectExpression (expression : String) : String :=
  let e := selectReplacements.foldl (fun acc pr => reSubWord pr.1 pr.2 acc) expression
  if strContains e " LIKE " then likeWildcardStep e else e

/-- `ParameterResolver._resolve_select_params` on the parameter dict:
rewrite the `expression` entry when it is a string. -/
def resolveSelectParams (params : Dict) : Dict :=
  match dictGet params "expression" with
  | some (PVal.str e) => dictSet params "expression" (PVal.str (resolveSelectExpression e))
  | _ => params

/-! ## `error_system/transaction_log.py` — transaction log with snapshots -/

/-- One transaction record.  Timestamps are modelled as naturals (the
source stores ISO timestamp strings, which sort chronologically). -/
structure TxRecord where
  transactionId : String
  timestamp : ℕ
  operationType : String
  parameters : Dict
  hasStateSnapshot : Bool
  stateId : Option String
  deriving DecidableEq, Repr

/-- The persistent state of a `TransactionLogger`: the transaction list
and the set of snapshot blobs on disk (identified by `state_id`). -/
structure TxLogState where
  maxStoredStates : ℕ
  transactions : List TxRecord
  blobs : List String
  deriving DecidableEq, Repr

/-- Newest-first comparison used by
`state_transactions.sort(key=..., reverse=True)`. -/
def newestFirst (a b : TxRecord) : Prop := b.timestamp ≤ a.timestamp

instance : DecidableRel newestFirst := fun a b => Nat.decLe b.timestamp a.timestamp

/-- The `states_to_remove` of `_cleanup_old_states`: the snapshot-bearing
records, sorted newest first, past the `max_stored_states` retention
boundary (restricted, as the source's `if state_id:` guard is, to records
carrying a `state_id`). -/
def statesToRemove (s : TxLogState) : List TxRecord :=
  ((List.insertionSort newestFirst
      (s.transactions.filter (fun t => t.hasStateSnapshot))).drop
    s.maxStoredStates).filter (fun t => t.stateId.isSome)

/-- The `transaction_id`s whose records `_cleanup_old_states` flips (the
flip is guarded by `if state_id:` in the source). -/
def removeIds (s : TxLogState) : List String :=
  (statesToRemove s).map (fun t => t.transactionId)

/-- The `state_id`s whose blobs `_cleanup_old_states` deletes. -/
def removeStateIds (s : TxLogState) : List String :=
  (statesToRemove s).filterMap (fun t => t.stateId)

/-- `TransactionLogger._cleanup_old_states` (lines 96–126): gather the
snapshot-bearing records, sort newest first, keep the newest
`max_stored_states`; for every other record WITH a `state_id`, delete its
blob and flip `has_state_snapshot` to `False`.  Records themselves are
never removed — only mutated in place (modelled by mapping over the list,
keyed by `transaction_id`). -/
def cleanupOldStates (s : TxLogState) : TxLogState :=
  { s with
    transactions := s.transactions.map (fun t =>
      if (removeIds s).contains t.transactionId then { t with hasStateSnapshot := false }
      else t)
    blobs := s.blobs.filter (fun b => ¬ (removeStateIds s).contains b) }

/-- `TransactionLogger.log_operation` (lines 128–195).  `now` stands for
the call time (`int(time.time())` / `datetime.now()`); the md5 fragment of
the transaction id is modelled by the operation tag itself.  On the
snapshot-saving path the blob is written and the record flagged FIRST,
then `_cleanup_old_states()` runs — crucially BEFORE the new record is
appended to `self.transactions` — and only then is the record appended.
A failed snapshot write (`snapshotWriteOk = false`) leaves the record
unflagged but still appends it. -/
def logOperation (s : TxLogState) (now : ℕ) (operationType : String)
    (parameters : Dict) (saveState : Bool) (hasStateData : Bool)
    (snapshotWriteOk : Bool) : TxLogState × String :=
  let txId := "tx_" ++ toString now ++ "_" ++ operationType
  let record : TxRecord :=
    { transactionId := txId, timestamp := now, operationType := operationType,
      parameters := parameters, hasStateSnapshot := false, stateId := none }
  if saveState ∧ hasStateData then
    if snapshotWriteOk then
      let stateId := "state_" ++ txId
      let record := { record with hasStateSnapshot := true, stateId := some stateId }
      let s1 := { s with blobs := s.blobs ++ [stateId] }
      let s2 := cleanupOldStates s1
      ({ s2 with transactions := s2.transactions ++ [record] }, txId)
    else
      ({ s with transactions := s.transactions ++ [record] }, txId)
  else
    ({ s with transactions := s.transactions ++ [record] }, txId)

/-- Number of transaction records currently flagged as snapshot-bearing. -/
def flaggedCount (s : TxLogState) : ℕ :=
  (s.transactions.filter (fun t => t.hasStateSnapshot)).length

/-- Well-formedness maintained by the logger: every snapshot-flagged
record carries a `state_id` (the source sets both together). -/
def txWF (s : TxLogState) : Prop :=
  ∀ t ∈ s.transactions, t.hasStateSnapshot = true → t.stateId.isSome = true

instance txWF_decidable (s : TxLogState) : Decidable (txWF s) :=
  List.decidableBAll _ s.transactions

/-- A fresh logger state with capacity `n` (`max_stored_states`). -/
def emptyTxLog (n : ℕ) : TxLogState := { maxStoredStates := n, transactions := [], blobs := [] }

/-- `k` successive snapshot-saving `log_operation` calls at times
`1, 2, …, k` on a logger configured with `max_stored_states = n`. -/
def txLogAfter (n k : ℕ) : TxLogState :=
  (List.range k).foldl
    (fun st i => (logOperation st (i + 1) "buffer" [] true true true).1)
    (emptyTxLog n)

/-! ## Concrete inputs used by the theorems below -/

/-- A single command containing every vocabulary layer type: the fallback
NER's uncapped `+0.1`-per-match loop drives its confidence far above 1. -/
def manyLayersText : String :=
  "buffer roads rivers buildings parcels boundaries points lines polygons raster vector shapefile layer features geometries areas zones regions by 5 meters"

/-- A structurally complete buffer query whose stated distance is `0`. -/
def zeroDistanceQuery : ParsedQuery :=
  { operation := some "buffer", inputLayer := some "roads", secondaryLayer := none,
    parameters := [("distance", PVal.num 0)], spatialRelationship := none,
    confidence := 1 }

/-- A parsed query with operation `"unknown"` and low confidence. -/
def unknownLowConfQuery : ParsedQuery :=
  { operation := some "unknown", inputLayer := none, secondaryLayer := none,
    parameters := [], spatialRelationship := none, confidence := mkRat 3 10 }

/-- The identity of a transaction record minus its snapshot flag: pruning
may flip `has_state_snapshot`, but must preserve everything else. -/
def txCore (t : TxRecord) : String × ℕ × String × Dict × Option String :=
  (t.transactionId, t.timestamp, t.operationType, t.parameters, t.stateId)

/-! ## Helper lemmas -/

theorem qAdd_eq (a b : ℚ) : qAdd a b = a + b := by
  rw [qAdd, Rat.add_def, Rat.normalize_eq_mkRat]

theorem qMul_eq (a b : ℚ) : qMul a b = a * b := by
  rw [qMul, Rat.mul_def, Rat.normalize_eq_mkRat]

theorem strFalsy_some (s : String) : strFalsy (some s) = (s == "") := rfl

theorem strFalsy_none : strFalsy none = true := rfl

theorem dictGet_set_same (d : Dict) (k : String) (v : PVal) :
    dictGet (dictSet d k v) k = some v := by
  induction d with
  | nil => simp [dictSet, dictGet]
  | cons kv rest ih =>
    obtain ⟨k', v'⟩ := kv
    by_cases h : k' == k
    · simp [dictSet, dictGet, h]
    · simp [dictSet, dictGet, h, ih]

theorem enhanceLayer_conf_ge (activeLayers : List String) (layer : Option String)
    (conf bonus : ℚ) (hb : 0 ≤ bonus) :
    conf ≤ (enhanceLayer activeLayers layer conf bonus).2 := by
  unfold enhanceLayer
  split
  · rcases h : matchLayerName (layer.getD "") activeLayers with _ | l
    · simp [h]
    · simp [h, qAdd_eq]
      linarith
  · simp

/-! ## Claim theorems -/

/-- C1: for every list of validation issues, `should_prevent_execution`
returns true iff at least one issue has severity `"error"`; in particular
it returns false on lists whose entries all have severity `"warning"`. -/
theorem c1_shouldPreventExecution_iff (issues : List VIssue) :
    (shouldPreventExecution issues = true ↔ ∃ i ∈ issues, i.severity = "error") ∧
    ((∀ i ∈ issues, i.severity = "warning") → shouldPreventExecution issues = false) := by
  constructor
  · simp [shouldPreventExecution, List.any_eq_true]
  · intro h
    simp only [shouldPreventExecution, List.any_eq_false]
    intro i hi
    simp [h i hi]

/-- Witness for C1 at concrete issue lists. -/
theorem c1_shouldPreventExecution_iff_witness :
    shouldPreventExecution [⟨"low_confidence", "low", "warning"⟩] = false ∧
    shouldPreventExecution [⟨"missing_input_layer", "missing", "error"⟩] = true := by
  refine ⟨(c1_shouldPreventExecution_iff [⟨"low_confidence", "low", "warning"⟩]).2 ?_,
    (c1_shouldPreventExecution_iff [⟨"missing_input_layer", "missing", "error"⟩]).1.mpr ?_⟩
  · intro i hi
    simp only [List.mem_singleton] at hi
    rw [hi]
  · exact ⟨⟨"missing_input_layer", "missing", "error"⟩, by simp⟩

/-- C3 (counterexample): processing `"Buffer the rivers layer by 2
kilometers"` with active layers `["rivers", "roads"]` leaves
`parameters.distance = 2` and `parameters.unit = "kilometer"` — NOT the
claimed `2000` metres: the fallback NER stores the raw value/unit without
conversion and its parameters override the context parser's converted
`2000` in the merge. -/
theorem c3_bufferScenario_cx :
    dictGet (processCommand "Buffer the rivers layer by 2 kilometers"
      ["rivers", "roads"]).parameters "distance" = some (PVal.num 2) ∧
    dictGet (processCommand "Buffer the rivers layer by 2 kilometers"
      ["rivers", "roads"]).parameters "distance" ≠ some (PVal.num 2000) ∧
    dictGet (processCommand "Buffer the rivers layer by 2 kilometers"
      ["rivers", "roads"]).parameters "unit" = some (PVal.str "kilometer") ∧
    dictGet (processCommand "Buffer the rivers layer by 2 kilometers"
      ["rivers", "roads"]).parameters "unit" ≠ some (PVal.str "meters") := by
  refine ⟨by decide, by decide, by decide, by decide⟩

/-- C3 (amended): the scenario resolves `operation = "buffer"`,
`input_layer = "rivers"`, and validation returns no issue at all (so no
blocking error), but the parameters keep the fallback NER's RAW
`distance = 2` / `unit = "kilometer"` (the context parser's converted
2000 m being overridden in the merge), not the claimed converted metres. -/
theorem c3_bufferScenario_amended :
    processCommand "Buffer the rivers layer by 2 kilometers" ["rivers", "roads"] =
      { operation := "buffer", inputLayer := some "rivers",
        secondaryLayer := some "layer",
        parameters := [("distance", PVal.num 2), ("unit", PVal.str "kilometer")],
        spatialRelationship := none, confidence := 1,
        originalText := "Buffer the rivers layer by 2 kilometers",
        processingMethod := "merged", disambiguationApplied := false,
        originalConfidence := none } ∧
    validateQuery (mergedToQuery (processCommand
      "Buffer the rivers layer by 2 kilometers" ["rivers", "roads"])) = [] :=
  ⟨by decide, by decide⟩

theorem c4_zeroDistance_cx :
    validateQuery zeroDistanceQuery = [⟨"warning", QMsg.nonPositiveDistance⟩] ∧
    ∀ i ∈ validateQuery zeroDistanceQuery, i.severity ≠ "error" := by
  refine ⟨by decide, by decide⟩

theorem c4_bufferDistance_amended (q : ParsedQuery) (l : String) (d : ℚ)
    (hop : q.operation = some "buffer") (hl : q.inputLayer = some l) (hne : l ≠ "")
    (hd : dictGet q.parameters "distance" = some (PVal.num d)) :
    (d ≤ 0 → QIssue.mk "warning" QMsg.nonPositiveDistance ∈ validateQuery q ∧
      ∀ i ∈ validateQuery q, i.severity = "warning") ∧
    (10000 < d → QIssue.mk "warning" QMsg.largeDistance ∈ validateQuery q ∧
      ∀ i ∈ validateQuery q, i.severity = "warning") := by
  constructor
  · intro hle
    have hsimp : validateQuery q = [QIssue.mk "warning" QMsg.nonPositiveDistance] ++
        (if q.confidence < mkRat 3 5 then [⟨"warning", QMsg.lowConfidence q.confidence⟩]
         else []) := by
      simp [validateQuery, hop, hl, strFalsy_some, hne, validateBufferDistance, hd, hle]
    rw [hsimp]
    constructor
    · exact List.mem_append_left _ (by simp)
    · intro i hi
      rcases List.mem_append.mp hi with h | h
      · simp at h; rw [h]
      · by_cases hc : q.confidence < mkRat 3 5 <;> simp [hc] at h
        rw [h]
  · intro hgt
    have hnle : ¬ d ≤ 0 := by linarith
    have hngt : ¬ d ≤ 10000 := by linarith
    have hsimp : validateQuery q = [QIssue.mk "warning" QMsg.largeDistance] ++
        (if q.confidence < mkRat 3 5 then [⟨"warning", QMsg.lowConfidence q.confidence⟩]
         else []) := by
      simp [validateQuery, hop, hl, strFalsy_some, hne, validateBufferDistance, hd, hnle,
        hgt]
    rw [hsimp]
    constructor
    · exact List.mem_append_left _ (by simp)
    · intro i hi
      rcases List.mem_append.mp hi with h | h
      · simp at h; rw [h]
      · by_cases hc : q.confidence < mkRat 3 5 <;> simp [hc] at h
        rw [h]

theorem c4_bufferDistance_amended_witness :
    QIssue.mk "warning" QMsg.nonPositiveDistance ∈ validateQuery zeroDistanceQuery ∧
    ∀ i ∈ validateQuery zeroDistanceQuery, i.severity = "warning" :=
  (c4_bufferDistance_amended zeroDistanceQuery "roads" 0 rfl rfl (by decide) (by decide)).1
    (by decide)

/-- C9 (counterexample): for the parsed query with operation `"unknown"`
and confidence `0.3 < 0.6`, `validate_query` returns ONLY the immediate
unknown-operation error — the claimed low-confidence warning is absent,
because the unknown-operation error returns early. -/
theorem c9_lowConfidenceUnknown_cx :
    validateQuery unknownLowConfQuery = [⟨"error", QMsg.unknownOperation⟩] ∧
    unknownLowConfQuery.confidence < mkRat 3 5 ∧
    QIssue.mk "warning" (QMsg.lowConfidence unknownLowConfQuery.confidence) ∉
      validateQuery unknownLowConfQuery := by
  refine ⟨by decide, by decide, by decide⟩

/-- C9 (amended): the low-confidence warning is guaranteed only for
queries whose operation is present and not `"unknown"`: for those,
confidence `< 0.6` always puts the severity-`"warning"` low-confidence
entry in the issue list, regardless of the other checks; for a missing or
`"unknown"` operation, `validate_query` short-circuits with the single
unknown-operation error and emits no low-confidence warning. -/
theorem c9_lowConfidenceWarning_amended (q : ParsedQuery)
    (h1 : strFalsy q.operation = false) (h2 : q.operation ≠ some "unknown")
    (h3 : q.confidence < mkRat 3 5) :
    QIssue.mk "warning" (QMsg.lowConfidence q.confidence) ∈ validateQuery q ∧
    ∀ q' : ParsedQuery, q'.operation = some "unknown" →
      validateQuery q' = [⟨"error", QMsg.unknownOperation⟩] := by
  constructor
  · simp only [validateQuery, h1, h2, if_neg, Bool.false_eq_true, false_or, if_false]
    refine List.mem_append_right _ ?_
    simp [h3]
  · intro q' hq'
    simp [validateQuery, hq']

/-- Witness for C9 (amended) at a concrete low-confidence select query. -/
theorem c9_lowConfidenceWarning_amended_witness :
    QIssue.mk "warning" (QMsg.lowConfidence (mkRat 3 10)) ∈ validateQuery
      { operation := some "select", inputLayer := some "roads",
        secondaryLayer := none, parameters := [("expression", PVal.str "a > 1")],
        spatialRelationship := none, confidence := mkRat 3 10 } :=
  (c9_lowConfidenceWarning_amended
    { operation := some "select", inputLayer := some "roads",
      secondaryLayer := none, parameters := [("expression", PVal.str "a > 1")],
      spatialRelationship := none, confidence := mkRat 3 10 }
    (by decide) (by decide) (by decide)).1

/-- C5 (counterexample): processing `"buffer by 100 meters"` with active
layers `["parcels"]` does NOT trigger disambiguation — the merged
confidence is `0.8 ≥ 0.6` — so `input_layer` stays unset, no
`auto_inferred_layer` marker is written, and `disambiguation_applied` is
never stamped, contrary to the claim. -/
theorem c5_ambiguousBuffer_cx :
    (processCommand "buffer by 100 meters" ["parcels"]).inputLayer = none ∧
    (processCommand "buffer by 100 meters" ["parcels"]).disambiguationApplied = false ∧
    dictGet (processCommand "buffer by 100 meters" ["parcels"]).parameters
      "auto_inferred_layer" = none ∧
    (processCommand "buffer by 100 meters" ["parcels"]).confidence = mkRat 4 5 := by
  refine ⟨by decide, by decide, by decide, by decide⟩

/-- C5 (amended): for this input the merged confidence is `0.8`, at or
above the `0.6` threshold, so `process_command` returns the merged record
unchanged with `input_layer = none` and no disambiguation marker; the
claimed filling behaviour is real but belongs to `_apply_disambiguation`
itself: on ANY record lacking an input layer it fills the first active
layer, sets `parameters.auto_inferred_layer = true` and stamps
`disambiguation_applied = true`. -/
theorem c5_ambiguousBuffer_amended :
    ((processCommand "buffer by 100 meters" ["parcels"]).confidence = mkRat 4 5 ∧
     ¬ (processCommand "buffer by 100 meters" ["parcels"]).confidence < mkRat 3 5 ∧
     processCommand "buffer by 100 meters" ["parcels"] =
       mergeAndEnhanceResults (fallbackNerExtract "buffer by 100 meters")
         (parseCommand ["parcels"] "buffer by 100 meters")
         "buffer by 100 meters" ["parcels"]) ∧
    (∀ (r : MergedResult) (text l : String) (ls : List String),
      r.inputLayer = none →
        (applyDisambiguation r text (l :: ls)).inputLayer = some l ∧
        dictGet (applyDisambiguation r text (l :: ls)).parameters
          "auto_inferred_layer" = some (PVal.bool true) ∧
        (applyDisambiguation r text (l :: ls)).disambiguationApplied = true) := by
  refine ⟨⟨by decide, by decide, by decide⟩, ?_⟩
  intro r text l ls hnone
  have hfill : strFalsy r.inputLayer ∧ (l :: ls) ≠ [] := by simp [hnone, strFalsy_none]
  refine ⟨?_, ?_, ?_⟩ <;> simp [applyDisambiguation, hfill, dictGet_set_same]

/-- Witness for C5 (amended): applying `_apply_disambiguation` to the
layerless record from the same command with no active layers. -/
theorem c5_ambiguousBuffer_amended_witness :
    (applyDisambiguation (processCommand "buffer by 100 meters" [])
      "buffer by 100 meters" ["parcels"]).inputLayer = some "parcels" ∧
    dictGet (applyDisambiguation (processCommand "buffer by 100 meters" [])
      "buffer by 100 meters" ["parcels"]).parameters "auto_inferred_layer" =
        some (PVal.bool true) ∧
    (applyDisambiguation (processCommand "buffer by 100 meters" [])
      "buffer by 100 meters" ["parcels"]).disambiguationApplied = true :=
  c5_ambiguousBuffer_amended.2 (processCommand "buffer by 100 meters" [])
    "buffer by 100 meters" "parcels" [] (by decide)

/-- C6: because `"greater than"` precedes `"greater than or equal to"` in
the substitution list, resolving the expression
`"population greater than or equal to 1000"` produces exactly the
partial-match corruption `"population > or equal to 1000"` — never `">="`
(and symmetrically for `"less than or equal to"`).  This contradicts both
the claim and the source's own intent in listing the longer phrases. -/
theorem c6_selectExpression_corruption :
    resolveSelectParams
      [("expression", PVal.str "population greater than or equal to 1000")] =
      [("expression", PVal.str "population > or equal to 1000")] ∧
    strContains (resolveSelectExpression "population greater than or equal to 1000")
      ">=" = false ∧
    resolveSelectExpression "height less than or equal to 50" =
      "height < or equal to 50" ∧
    strContains (resolveSelectExpression "height less than or equal to 50")
      "<=" = false := by
  refine ⟨by decide, by decide, by decide, by decide⟩

/-- C8: `check_operation_risks` does not wrap rule predicates, so a single
raising rule aborts the whole check: with the default rules plus a raising
custom rule and a later well-behaved rule, the call propagates the
exception (no risk list, the later rule never runs), whereas the §7
propagation policy (`checkOperationRisksSkipFailing`, modelled from the
spec) would skip the bad rule and still report the later rule's risk. -/
theorem c8_checkOperationRisks_raises :
    checkOperationRisks riskRulesWithBadRule "buffer" validBufferRiskParams =
      Except.error "ZeroDivisionError: division by zero" ∧
    checkOperationRisksSkipFailing riskRulesWithBadRule "buffer" validBufferRiskParams =
      [⟨"custom_firing_rule", "Warning: custom firing risk.", "warning"⟩] :=
  ⟨rfl, rfl⟩

/-- C10: `parse_query`'s active-layer normalization indexes
`active_layers[0]` without guarding against the empty list, so a context
whose `'active_layers'` is `[]` raises `IndexError` (for both runtime list
shapes) instead of completing; a non-empty list is processed normally. -/
theorem c10_parseQueryEmptyLayers_raises :
    parseQueryContextStep (some ⟨ActiveLayersRepr.byName [], none⟩) =
      Except.error "IndexError: list index out of range" ∧
    parseQueryContextStep (some ⟨ActiveLayersRepr.byDict [], none⟩) =
      Except.error "IndexError: list index out of range" ∧
    parseQueryContextStep (some ⟨ActiveLayersRepr.byName ["parcels"], none⟩) =
      Except.ok (some ["parcels"], none) :=
  ⟨rfl, rfl, rfl⟩

/-- C2 (counterexample): the fallback NER's layer loop adds `0.1` per
matched layer type without a cap, so the command `manyLayersText` enters
the merge stage with confidence `2.5`; the merge stage's `min(..., 1.0)`
then OUTPUTS `1 < 2.5`, so the merge/enhance stage is not monotone in the
confidence of its input record. -/
theorem c2_confidenceMonotonicity_cx :
    (fallbackNerExtract manyLayersText).confidence = mkRat 5 2 ∧
    (mergeAndEnhanceResults (fallbackNerExtract manyLayersText)
      (parseCommand [] manyLayersText) manyLayersText []).confidence = 1 ∧
    (mergeAndEnhanceResults (fallbackNerExtract manyLayersText)
      (parseCommand [] manyLayersText) manyLayersText []).confidence <
      (fallbackNerExtract manyLayersText).confidence := by
  refine ⟨by decide, by decide, by decide⟩

/-- C2 (amended): the stated monotonicity and cap hold with provisos.  For
`_merge_and_enhance_results`, whenever the entity record's confidence is
within the documented range (`≤ 1`), the output confidence lies between it
and `1` (the context record carries no confidence key, so it reads as 0).
For `_apply_disambiguation` the output confidence never decreases and
grows by at most `0.1`, but the source applies NO `1.0` cap there: the
output stays `≤ 1` exactly when the input is `≤ 0.9`, which is guaranteed
at its call site by the `< 0.6` disambiguation trigger. -/
theorem c2_confidenceMonotonicity_amended :
    (∀ (e : EntityResult) (c : ContextResult) (text : String) (layers : List String),
      e.confidence ≤ 1 →
        e.confidence ≤ (mergeAndEnhanceResults e c text layers).confidence ∧
        (mergeAndEnhanceResults e c text layers).confidence ≤ 1) ∧
    (∀ (r : MergedResult) (text : String) (layers : List String),
      r.confidence ≤ (applyDisambiguation r text layers).confidence ∧
      (applyDisambiguation r text layers).confidence ≤ r.confidence + 1/10 ∧
      (r.confidence ≤ 9/10 → (applyDisambiguation r text layers).confidence ≤ 1)) := by
  constructor
  · intro e c text layers he
    have h0 : e.confidence ≤ max e.confidence 0 := le_max_left _ _
    have h1 : max e.confidence 0 ≤
        (enhanceLayer layers (pyOr e.primaryTarget c.inputLayer)
          (max e.confidence 0) (mkRat 1 10)).2 :=
      enhanceLayer_conf_ge _ _ _ _ (by norm_num [Rat.mkRat_eq_div])
    have h2 : (enhanceLayer layers (pyOr e.primaryTarget c.inputLayer)
          (max e.confidence 0) (mkRat 1 10)).2 ≤
        (enhanceLayer layers (pyOr e.secondaryTarget c.secondaryLayer)
          (enhanceLayer layers (pyOr e.primaryTarget c.inputLayer)
            (max e.confidence 0) (mkRat 1 10)).2 (mkRat 1 20)).2 :=
      enhanceLayer_conf_ge _ _ _ _ (by norm_num [Rat.mkRat_eq_div])
    constructor
    · simp only [mergeAndEnhanceResults]
      exact le_min (le_trans h0 (le_trans h1 h2)) he
    · simp only [mergeAndEnhanceResults]
      exact min_le_right _ _
  · intro r text layers
    have hq : mkRat 1 10 = (1 : ℚ)/10 := by norm_num [Rat.mkRat_eq_div]
    simp only [applyDisambiguation]
    split
    · rw [qAdd_eq, hq]
      refine ⟨by linarith, le_rfl, fun h => by linarith⟩
    · exact ⟨le_rfl, by linarith, fun h => by linarith⟩

/-- Witness for C2 (amended) at the merged record of a concrete command. -/
theorem c2_confidenceMonotonicity_amended_witness :
    (fallbackNerExtract "buffer by 100 meters").confidence ≤ 1 ∧
    (fallbackNerExtract "buffer by 100 meters").confidence ≤
      (mergeAndEnhanceResults (fallbackNerExtract "buffer by 100 meters")
        (parseCommand ["parcels"] "buffer by 100 meters")
        "buffer by 100 meters" ["parcels"]).confidence ∧
    (mergeAndEnhanceResults (fallbackNerExtract "buffer by 100 meters")
      (parseCommand ["parcels"] "buffer by 100 meters")
      "buffer by 100 meters" ["parcels"]).confidence ≤ 1 :=
  ⟨by decide,
   (c2_confidenceMonotonicity_amended.1 (fallbackNerExtract "buffer by 100 meters")
     (parseCommand ["parcels"] "buffer by 100 meters")
     "buffer by 100 meters" ["parcels"] (by decide)).1,
   (c2_confidenceMonotonicity_amended.1 (fallbackNerExtract "buffer by 100 meters")
     (parseCommand ["parcels"] "buffer by 100 meters")
     "buffer by 100 meters" ["parcels"] (by decide)).2⟩

theorem flaggedCount_cleanup_le (s : TxLogState) (h : txWF s) :
    flaggedCount (cleanupOldStates s) ≤ s.maxStoredStates := by
  have hperm : List.Perm
      (List.insertionSort newestFirst
        (s.transactions.filter (fun t => t.hasStateSnapshot)))
      (s.transactions.filter (fun t => t.hasStateSnapshot)) :=
    List.perm_insertionSort _ _
  have step1 : flaggedCount (cleanupOldStates s) =
      List.countP (fun t => t.hasStateSnapshot &&
        !((removeIds s).contains t.transactionId)) s.transactions := by
    simp only [flaggedCount, cleanupOldStates, ← List.countP_eq_length_filter,
      List.countP_map]
    congr 1
    funext t
    by_cases hmem : t.transactionId ∈ removeIds s <;>
      simp [Function.comp, hmem]
  have step2 : List.countP (fun t => t.hasStateSnapshot &&
      !((removeIds s).contains t.transactionId)) s.transactions =
      List.countP (fun t => !((removeIds s).contains t.transactionId))
        (s.transactions.filter (fun t => t.hasStateSnapshot)) := by
    rw [List.countP_filter]
    congr 1
    funext t
    rw [Bool.and_comm]
  have step4 : List.countP (fun t => !((removeIds s).contains t.transactionId))
      ((List.insertionSort newestFirst
        (s.transactions.filter (fun t => t.hasStateSnapshot))).drop
          s.maxStoredStates) = 0 := by
    rw [List.countP_eq_zero]
    intro t ht
    have htM : t ∈ s.transactions.filter (fun t => t.hasStateSnapshot) :=
      hperm.mem_iff.mp (List.mem_of_mem_drop ht)
    have hflag : t.hasStateSnapshot = true := by
      simpa using (List.mem_filter.mp htM).2
    have htL : t ∈ s.transactions := (List.mem_filter.mp htM).1
    have hsome : t.stateId.isSome = true := h t htL hflag
    have htR : t ∈ statesToRemove s :=
      List.mem_filter.mpr ⟨ht, by simpa using hsome⟩
    have hmem : t.transactionId ∈ removeIds s :=
      List.mem_map.mpr ⟨t, htR, rfl⟩
    simp [hmem]
  rw [step1, step2, ← hperm.countP_eq]
  conv_lhs => rw [← List.take_append_drop s.maxStoredStates
    (List.insertionSort newestFirst
      (s.transactions.filter (fun t => t.hasStateSnapshot)))]
  rw [List.countP_append, step4, Nat.add_zero]
  calc List.countP (fun t => !((removeIds s).contains t.transactionId))
        ((List.insertionSort newestFirst
          (s.transactions.filter (fun t => t.hasStateSnapshot))).take
            s.maxStoredStates)
      ≤ ((List.insertionSort newestFirst
          (s.transactions.filter (fun t => t.hasStateSnapshot))).take
            s.maxStoredStates).length := List.countP_le_length _
    _ ≤ s.maxStoredStates := by rw [List.length_take]; exact Nat.min_le_left _ _

theorem cleanup_preserves_records (s : TxLogState) :
    (cleanupOldStates s).transactions.length = s.transactions.length ∧
    (cleanupOldStates s).transactions.map txCore = s.transactions.map txCore := by
  constructor
  · simp [cleanupOldStates]
  · simp only [cleanupOldStates, List.map_map]
    apply List.map_congr_left
    intro t _
    by_cases hmem : t.transactionId ∈ removeIds s <;> simp [Function.comp, hmem, txCore]

/-- C7 (counterexample): with `max_stored_states = 2`, after the third
snapshot-saving `log_operation` call THREE records carry
`has_state_snapshot = true` — the cleanup runs before the new record is
appended, so it never counts the newest snapshot, and `N` is exceeded
after every snapshot-saving call once `N` snapshots exist (similarly,
with the default `10`, eleven records are flagged after the eleventh
call). -/
theorem c7_snapshotRetention_cx :
    (txLogAfter 2 3).maxStoredStates = 2 ∧ flaggedCount (txLogAfter 2 3) = 3 ∧
    (txLogAfter 10 11).maxStoredStates = 10 ∧ flaggedCount (txLogAfter 10 11) = 11 := by
  refine ⟨by decide, by decide, by decide, by decide⟩

/-- C7 (amended): after every snapshot-saving `log_operation` call, at
most `max_stored_states + 1` transaction records have
`has_state_snapshot = true` (the cleanup bounds the PREVIOUSLY stored
snapshots by `N` and the newly appended record makes `N + 1`); pruning
deletes only the blob and flips the record's flag — cleanup preserves the
number of transaction records and every field other than the flag — and
`log_operation` always appends exactly one record, never removing any. -/
theorem c7_snapshotRetention_amended :
    (∀ (s : TxLogState) (now : ℕ) (op : String) (ps : Dict), txWF s →
      flaggedCount (logOperation s now op ps true true true).1 ≤
        s.maxStoredStates + 1) ∧
    (∀ s : TxLogState,
      (cleanupOldStates s).transactions.length = s.transactions.length ∧
      (cleanupOldStates s).transactions.map txCore = s.transactions.map txCore) ∧
    (∀ (s : TxLogState) (now : ℕ) (op : String) (ps : Dict) (sv sd ok : Bool),
      (logOperation s now op ps sv sd ok).1.transactions.length =
        s.transactions.length + 1) := by
  refine ⟨?_, cleanup_preserves_records, ?_⟩
  · intro s now op ps hwf
    have hwf1 : txWF { s with
        blobs := s.blobs ++ ["state_" ++ ("tx_" ++ toString now ++ "_" ++ op)] } := hwf
    have hle := flaggedCount_cleanup_le
      { s with blobs := s.blobs ++ ["state_" ++ ("tx_" ++ toString now ++ "_" ++ op)] }
      hwf1
    simp only [logOperation, and_self, if_true, ite_true]
    simp only [flaggedCount] at hle ⊢
    rw [List.filter_append, List.length_append]
    have hone : (List.filter (fun t => t.hasStateSnapshot)
        ([{ transactionId := "tx_" ++ toString now ++ "_" ++ op, timestamp := now,
            operationType := op, parameters := ps, hasStateSnapshot := true,
            stateId := some ("state_" ++ ("tx_" ++ toString now ++ "_" ++ op)) }] :
          List TxRecord)).length = 1 := rfl
    rw [hone]
    omega
  · intro s now op ps sv sd ok
    rcases Decidable.em (sv ∧ sd) with h1 | h1
    · cases ok with
      | false => simp [logOperation, h1]
      | true =>
        simp only [logOperation, h1, and_self, if_true, ite_true, List.length_append]
        rw [(cleanup_preserves_records _).1]
        rfl
    · simp [logOperation, h1]

/-- Witness for C7 (amended) at a concrete two-snapshot log state. -/
theorem c7_snapshotRetention_amended_witness :
    txWF (txLogAfter 2 2) ∧
    flaggedCount (logOperation (txLogAfter 2 2) 3 "buffer" [] true true true).1 ≤
      (txLogAfter 2 2).maxStoredStates + 1 :=
  ⟨by decide, c7_snapshotRetention_amended.1 (txLogAfter 2 2) 3 "buffer" [] (by decide)⟩
